import Mathlib

/-!
Shallow embedding of the acquisition-and-reconciliation pipeline of the
`cautious-robot` repository (`src/cautiousrobot/`), together with theorems
checking the natural-language specification against it.

Conventions of the embedding:
* pandas DataFrames become Lean lists of records; a nullable cell becomes an
  `Option`;
* external collaborators (the network via `requests`, the `mimetypes` table,
  the file system via `os.path`) become explicit function parameters, so every
  definition stays executable;
* the side effects of the download loop (HTTP attempts, sleeps, log appends,
  directory creation, file writes, downsample invocations) are reified as an
  event trace, mirroring the statement order of the Python source.
-/

namespace CautiousRobot

/-! ## Reconciliation engine (`buddy_check.py`, `BuddyCheck.check_alignment`) -/

/-- A row of the source (expected) DataFrame `img_df`: the unique-identifier
column (`id_col`, nullable) and the expected-checksum column
(`validation_col`).  Mirrors the two columns `check_alignment` reads. -/
structure ImgRow where
  idOpt : Option String
  checksum : String
  deriving DecidableEq, Repr

/-- A row of the checksum (observed) DataFrame `checksum_df`: the observed
identifier column (`buddy_id`) and the checksum column (`buddy_col`). -/
structure ChkRow where
  idVal : String
  checksum : String
  deriving DecidableEq, Repr

/-- One matching row of the pandas inner merge: `pd.merge(df, checksum_df,
how = "inner")` produces one output row per matching (left, right) pair. -/
def innerMerge (useBuddyId : Bool) (df : List ImgRow) (checksumDf : List ChkRow) :
    List (ImgRow × ChkRow) :=
  df.flatMap fun r =>
    (checksumDf.filter fun c =>
      if useBuddyId then r.idOpt = some c.idVal ∧ r.checksum = c.checksum
      else r.checksum = c.checksum).map fun c => (r, c)

/-- `BuddyCheck.check_alignment` (buddy_check.py lines 12-55).
`useBuddyId = false` is the checksum-only merge (`buddy_id is None`),
`useBuddyId = true` the identifier+checksum merge.  Steps mirrored:
`df = img_df.loc[img_df[id_col].notna()]`; the inner merge; the guard
`dl_match.shape[0] < df.shape[0]`; `downloaded_ids =
list(dl_match[id_col].unique())`; `missing_imgs = df.loc[~df[id_col].isin(
downloaded_ids)]`; result `None` when the guard fails. -/
def check_alignment (useBuddyId : Bool) (imgDf : List ImgRow)
    (checksumDf : List ChkRow) : Option (List ImgRow) :=
  let df := imgDf.filter fun r => r.idOpt.isSome
  let dlMatch := innerMerge useBuddyId df checksumDf
  if dlMatch.length < df.length then
    let downloadedIds := (dlMatch.map fun p => p.1.idOpt).dedup
    some (df.filter fun r => ¬ r.idOpt ∈ downloadedIds)
  else
    none

/-- The missing set as the specification words it (§4.6): "`missingRows :=
expectedRows` whose identifier is *not* among the joined result's
identifiers", with the expected rows taken over the null-filtered table.
This is the spec-side definition used to compare `check_alignment` against
the spec's description of it. -/
def spec_missing_rows (useBuddyId : Bool) (imgDf : List ImgRow)
    (checksumDf : List ChkRow) : List ImgRow :=
  let df := imgDf.filter fun r => r.idOpt.isSome
  let joined := innerMerge useBuddyId df checksumDf
  df.filter fun r => ¬ r.idOpt ∈ (joined.map fun p => p.1.idOpt)

/-! ## Filename/extension resolver (`download.py`)

A pandas cell that may hold `NaN` is modelled by `Cell`; the external
collaborators (`requests.head`, the `mimetypes` table) are passed in as
functions (`headRaw url` is the raw `content-type` header of the HEAD
probe, `none` when the request raises; `guessType`/`guessExt` are
`mimetypes.guess_type`/`mimetypes.guess_extension`). -/

/-- A DataFrame cell: either missing (`NaN`, caught by `pd.isna`) or a
string value. -/
inductive Cell where
  | na : Cell
  | str (s : String) : Cell
  deriving DecidableEq, Repr

/-- Python `str(cell)`: `str(float("nan"))` is `"nan"`. -/
def cellString (c : Cell) : String :=
  match c with
  | .na => "nan"
  | .str s => s

/-- Python `str.lower()` (ASCII range, which is all the code compares). -/
def pyLower (s : String) : String :=
  String.mk (s.data.map Char.toLower)

/-- Python `str.strip()`: leading and trailing whitespace removed. -/
def pyStrip (s : String) : String :=
  String.mk
    (((s.data.dropWhile Char.isWhitespace).reverse.dropWhile
      Char.isWhitespace).reverse)

/-- `is_url_missing_or_invalid` (download.py lines 207-223): `pd.isna`,
falsiness of the value, then the lowercased/stripped sentinel list. -/
def is_url_missing_or_invalid (url : Cell) : Bool :=
  match url with
  | .na => true
  | .str s =>
    if s = "" then true
    else if pyStrip (pyLower s) = "nan" ∨ pyStrip (pyLower s) = "none" ∨
        pyStrip (pyLower s) = "null" ∨ pyStrip (pyLower s) = "" then true
    else false

/-- Index of the last occurrence of `c` in `cs`, if any. -/
def lastIndexOf (cs : List Char) (c : Char) : Option Nat :=
  ((cs.enum.filter fun p => p.2 = c).map fun p => p.1).getLast?

/-- The extension part of `os.path.splitext`: the suffix from the last dot,
provided that dot lies after the last path separator and at least one
non-dot character of the final segment precedes it (so `".bashrc"` has no
extension); `""` when there is none. -/
def splitextExtension (p : String) : String :=
  let cs := p.data
  match lastIndexOf cs '.' with
  | none => ""
  | some d =>
    let start := match lastIndexOf cs '/' with
      | none => 0
      | some si => si + 1
    if (match lastIndexOf cs '/' with
        | none => true
        | some si => decide (si < d)) then
      if ((cs.drop start).take (d - start)).any (fun ch => ch ≠ '.') then
        String.mk (cs.drop d)
      else ""
    else ""

/-- `extract_extension_from_filename` (download.py lines 21-32): the
`splitext` extension, `None` when empty. -/
def extract_extension_from_filename (filename : String) : Option String :=
  let ext := splitextExtension filename
  if ext = "" then none else some ext

/-- Characters allowed in a URL scheme after the leading letter. -/
def isSchemeChar (c : Char) : Bool :=
  c.isAlphanum || c = '+' || c = '-' || c = '.'

/-- Drop a leading `scheme:` as `urllib.parse.urlsplit` does: the text
before the first `:` must start with a letter and consist of scheme
characters. -/
def dropScheme (cs : List Char) : List Char :=
  match cs.findIdx? (fun c => c = ':') with
  | some i =>
    let pre := cs.take i
    if 0 < i ∧ (pre.headD ' ').isAlpha ∧ pre.all isSchemeChar then
      cs.drop (i + 1)
    else cs
  | none => cs

/-- Drop a leading `//netloc` as `urlsplit` does: everything after `//` up
to the first `/`, `?` or `#`. -/
def dropNetloc (cs : List Char) : List Char :=
  if cs.take 2 = ['/', '/'] then
    (cs.drop 2).dropWhile fun c => !(c = '/' || c = '?' || c = '#')
  else cs

/-- The `path` component of `urllib.parse.urlparse`: scheme and netloc
removed, then fragment (from `#`) and query (from `?`) stripped. -/
def urlparsePath (url : String) : String :=
  let cs := dropNetloc (dropScheme url.data)
  String.mk ((cs.takeWhile fun c => c ≠ '#').takeWhile fun c => c ≠ '?')

/-- `extract_extension_from_url` (download.py lines 35-48): `splitext` over
`urlparse(url).path`, ignoring query parameters and fragments. -/
def extract_extension_from_url (url : String) : Option String :=
  let ext := splitextExtension (urlparsePath url)
  if ext = "" then none else some ext

/-- `get_content_type_from_url` (download.py lines 51-70): `None` for an
invalid URL or a failed HEAD probe, otherwise the header value up to the
first `;`, stripped; an empty header is `None`. -/
def get_content_type_from_url (headRaw : String → Option String)
    (url : Cell) : Option String :=
  if is_url_missing_or_invalid url then none
  else
    match headRaw (cellString url) with
    | none => none
    | some ct =>
      if ct = "" then none
      else some (pyStrip (String.mk (ct.data.takeWhile fun c => c ≠ ';')))

/-- `are_extensions_equivalent` (download.py lines 73-102): identical after
lowercasing, or same guessed MIME type confirmed by the served
Content-Type. -/
def are_extensions_equivalent (guessType headRaw : String → Option String)
    (ext1 ext2 : String) (url : Cell) : Bool :=
  if pyLower ext1 = pyLower ext2 then true
  else
    match guessType ("file" ++ ext1), guessType ("file" ++ ext2) with
    | some mime1, some mime2 =>
      if mime1 = mime2 then
        decide (get_content_type_from_url headRaw url = some mime1)
      else false
    | _, _ => false

/-- `resolve_filename_with_extension` (download.py lines 105-156).  The
Python contract returns a `(filename_or_None, error_or_None)` pair with
exactly one side set; that is `Except`: `.ok filename` or `.error msg`. -/
def resolve_filename_with_extension
    (guessType guessExt headRaw : String → Option String)
    (base_filename : String) (url : Cell) : Except String String :=
  let name_ext := extract_extension_from_filename base_filename
  if is_url_missing_or_invalid url then .ok base_filename
  else
    let url_ext := extract_extension_from_url (cellString url)
    match name_ext, url_ext with
    | some ne, some ue =>
      if are_extensions_equivalent guessType headRaw ne ue url then
        .ok base_filename
      else
        .error ("Mismatching extensions in input data may cause unexpected behavior: filename has '"
          ++ ne ++ "' but URL suggests '" ++ ue
          ++ "'. These extensions are not equivalent for content served by "
          ++ cellString url)
    | some _, none => .ok base_filename
    | none, some ue => .ok (base_filename ++ ue)
    | none, none =>
      match get_content_type_from_url headRaw url with
      | some ct =>
        match guessExt ct with
        | some ie => .ok (base_filename ++ ie)
        | none => .ok base_filename
      | none => .ok base_filename

/-- `get_image_path` (download.py lines 173-204): resolve the filename,
then join the subfolder column onto the image directory when configured. -/
def get_image_path (guessType guessExt headRaw : String → Option String)
    (img_dir : String) (useSubfolders : Bool) (subfolderCell : String)
    (filenameCell : String) (urlCell : Cell) :
    Except String (String × String) :=
  match resolve_filename_with_extension guessType guessExt headRaw
      filenameCell urlCell with
  | .error e => .error e
  | .ok image_name =>
    .ok (if useSubfolders then img_dir ++ "/" ++ subfolderCell else img_dir,
      image_name)

/-! ## Fetch executor (`download.py`, `download_single_image` /
`download_images`)

The loop's observable actions are reified as an event trace in the order
the Python statements execute them.  The remote server is the function
`resp : Nat → Resp` giving the outcome of the `k`-th `requests.get` call
(0-based); the file system is the oracle `fs : String → Bool` answering
`os.path.exists`. -/

/-- What a single `requests.get` call produces: a raised exception (with
its message) or an HTTP response with a status code. -/
inductive Resp where
  | exn (msg : String) : Resp
  | status (code : Nat) : Resp
  deriving DecidableEq, Repr

/-- A log line as built by `log_response` (utils.py lines 12-20): image
name, file path, and the always-stringified response status. -/
structure LogEntry where
  image : String
  filePath : String
  responseStatus : String
  deriving DecidableEq, Repr

/-- One observable action of the download code, in source order:
`requests.get` attempts, `time.sleep`, appends to the success/failure log
files (`update_log`), directory creation, the streamed body write, and the
invocation of `downsample_and_save_image`. -/
inductive Ev where
  | attempt (k : Nat) : Ev
  | sleep (secs : Nat) : Ev
  | logSuccess (e : LogEntry) : Ev
  | logFailure (e : LogEntry) : Ev
  | mkdir (dir : String) : Ev
  | writeFile (path : String) : Ev
  | downsampleInvoke (srcDir name ddir : String) (size : Nat) : Ev
  deriving DecidableEq, Repr

/-- `REDO_CODE_LIST` (download.py line 17). -/
def REDO_CODE_LIST : List Nat := [403, 429, 500, 502, 503, 504]

/-- The retry loop of `download_single_image` (download.py lines 270-336).
`k` is the index of the next attempt, the second argument the
`attempts_remaining` counter; `retry` stays the original budget because the
403 backoff reads it (`wait * (2 ** (retry - attempts_remaining))`).
Returns the event trace and the `success` flag. -/
def dsiLoop (resp : Nat → Resp) (wait retry : Nat)
    (url image_name image_dir_path : String) :
    Nat → Nat → List Ev × Bool
  | _, 0 => ([], false)
  | k, r + 1 =>
    match resp k with
    | .exn e =>
      if r = 0 then
        ([.attempt k, .logFailure ⟨image_name, url, e⟩], false)
      else
        let p := dsiLoop resp wait retry url image_name image_dir_path
          (k + 1) r
        (.attempt k :: p.1, p.2)
    | .status c =>
      if c = 200 then
        ([.attempt k, .logSuccess ⟨image_name, url, Nat.repr c⟩,
          .mkdir image_dir_path,
          .writeFile (image_dir_path ++ "/" ++ image_name)], true)
      else if c ∈ REDO_CODE_LIST then
        if r = 0 then
          ([.attempt k, .logFailure ⟨image_name, url, Nat.repr c⟩], false)
        else
          let p := dsiLoop resp wait retry url image_name image_dir_path
            (k + 1) r
          (.attempt k ::
            .sleep (if c = 403 then wait * 2 ^ (retry - r) else wait) ::
            p.1, p.2)
      else
        ([.attempt k, .logFailure ⟨image_name, url, Nat.repr c⟩], false)

/-- `download_single_image`: run the loop with the full budget. -/
def download_single_image (resp : Nat → Resp) (wait retry : Nat)
    (url image_name image_dir_path : String) : List Ev × Bool :=
  dsiLoop resp wait retry url image_name image_dir_path 0 retry

/-- Configuration of a `download_images` run (download.py lines 384-401). -/
structure DownloadConfig where
  imgDir : String
  useSubfolders : Bool
  downsamplePath : String
  downsample : Option Nat
  wait : Nat
  retry : Nat

/-- A manifest row as `download_images` reads it: the stringified filename
cell, the raw URL cell, the subfolder cell, and the server's responses to
this row's attempts. -/
structure Row where
  filenameCell : String
  urlCell : Cell
  subfolderCell : String
  resp : Nat → Resp

/-- The `file_path` recorded by `handle_download_skip` (download.py lines
226-247): `str(url) if url else "N/A"` — note `float("nan")` is truthy, so
a missing cell logs as `"nan"`. -/
def skipFilePath (url : Cell) : String :=
  match url with
  | .na => "nan"
  | .str s => if s = "" then "N/A" else s

/-- `process_downsampling` (download.py lines 339-381): nothing when no
downsample size is configured or the resized copy already exists, otherwise
the invocation of `downsample_and_save_image`. -/
def process_downsampling (fs : String → Bool) (cfg : DownloadConfig)
    (subfolderCell image_name image_dir_path : String) : List Ev :=
  match cfg.downsample with
  | none => []
  | some size =>
    let ddir :=
      if cfg.useSubfolders then cfg.downsamplePath ++ "/" ++ subfolderCell
      else cfg.downsamplePath
    if fs (ddir ++ "/" ++ image_name) then []
    else [.downsampleInvoke image_dir_path image_name ddir size]

/-- The body of the per-row loop of `download_images` (download.py lines
410-444): invalid-URL skip, extension-mismatch skip, already-present skip,
then the fetch, and the downsample step only under `if success:`. -/
def processRow (guessType guessExt headRaw : String → Option String)
    (fs : String → Bool) (cfg : DownloadConfig) (row : Row) : List Ev :=
  if is_url_missing_or_invalid row.urlCell then
    [.logFailure ⟨row.filenameCell, skipFilePath row.urlCell, "invalid url"⟩]
  else
    match get_image_path guessType guessExt headRaw cfg.imgDir
        cfg.useSubfolders row.subfolderCell row.filenameCell row.urlCell with
    | .error _ =>
      [.logFailure
        ⟨row.filenameCell, skipFilePath row.urlCell, "extension mismatch"⟩]
    | .ok (image_dir_path, image_name) =>
      if fs (image_dir_path ++ "/" ++ image_name) then []
      else
        let p := download_single_image row.resp cfg.wait cfg.retry
          (cellString row.urlCell) image_name image_dir_path
        p.1 ++
          (if p.2 then
            process_downsampling fs cfg row.subfolderCell image_name
              image_dir_path
          else [])

/-- `download_images` (download.py lines 384-444): each row of the manifest
is processed in turn; the run's trace is the concatenation of the per-row
traces. -/
def download_images (guessType guessExt headRaw : String → Option String)
    (fs : String → Bool) (cfg : DownloadConfig) (rows : List Row) :
    List Ev :=
  rows.flatMap (processRow guessType guessExt headRaw fs cfg)

/-- Recognizer for success-log events. -/
def Ev.isLogSuccess : Ev → Bool
  | .logSuccess _ => true
  | _ => false

/-- Recognizer for failure-log events. -/
def Ev.isLogFailure : Ev → Bool
  | .logFailure _ => true
  | _ => false

/-- Recognizer for sleep events. -/
def Ev.isSleep : Ev → Bool
  | .sleep _ => true
  | _ => false

/-- Recognizer for attempt events. -/
def Ev.isAttempt : Ev → Bool
  | .attempt _ => true
  | _ => false

/-- Recognizer for downsample-writer invocations. -/
def Ev.isDownsampleInvoke : Ev → Bool
  | .downsampleInvoke _ _ _ _ => true
  | _ => false

/-- Recognizer for file-system mutations of the primary artifact. -/
def Ev.isDiskWrite : Ev → Bool
  | .mkdir _ => true
  | .writeFile _ => true
  | _ => false

/-! ## Existence guard (`utils.py`, `check_existing_images`)

The file system is abstracted as: `dirExists` (`os.path.exists(img_dir)`),
`existingFiles` (the list `gather_file_paths(img_dir)` returns, `[]` when
the directory is empty), and the two `os.path` normalizers `relnorm`
(`normpath ∘ relpath` applied to a gathered path) and `norm` (`normpath`
applied to an expected relative path). -/

/-- A row as `check_existing_images` reads it: the stringified filename and
subfolder cells. -/
structure CERow where
  filenameCell : String
  subfolderCell : String
  deriving DecidableEq, Repr

/-- The outcome of `check_existing_images`: either the early `sys.exit`
("nothing to do"), or the pair (annotated rows, pending rows) with the
printed counts (`None` in the missing-directory branch, which prints
nothing). -/
inductive CheckExistingResult where
  | exitAllPresent : CheckExistingResult
  | ok (annotated : List (CERow × Bool)) (pending : List CERow)
      (report : Option (Nat × Nat)) : CheckExistingResult
  deriving DecidableEq, Repr

/-- The expected relative path of a row (utils.py lines 128-136):
subfolder-joined when configured, then normalized. -/
def expectedPath (norm : String → String) (useSubfolders : Bool)
    (r : CERow) : String :=
  if useSubfolders then norm (r.subfolderCell ++ "/" ++ r.filenameCell)
  else norm r.filenameCell

/-- The rows not yet present: `df[~df["in_img_dir"]]`. -/
def pendingRows (existingFiles : List String)
    (relnorm norm : String → String) (useSubfolders : Bool)
    (rows : List CERow) : List CERow :=
  rows.filter fun r =>
    ¬ expectedPath norm useSubfolders r ∈ existingFiles.map relnorm

/-- The rows annotated with the `in_img_dir` flag. -/
def annotatedRows (existingFiles : List String)
    (relnorm norm : String → String) (useSubfolders : Bool)
    (rows : List CERow) : List (CERow × Bool) :=
  rows.map fun r =>
    (r, decide (expectedPath norm useSubfolders r ∈ existingFiles.map
      relnorm))

/-- `check_existing_images` (utils.py lines 87-156): when the directory
does not exist every row is pending and nothing is printed; otherwise the
gathered files are normalized into a membership set, rows are annotated,
and either the run exits early (`sys.exit`) because nothing is pending, or
the counts (`len(existing_files)`, pending) are reported. -/
def check_existing_images (dirExists : Bool) (existingFiles : List String)
    (relnorm norm : String → String) (useSubfolders : Bool)
    (rows : List CERow) : CheckExistingResult :=
  if dirExists = false then
    .ok (rows.map fun r => (r, false)) rows none
  else if (pendingRows existingFiles relnorm norm useSubfolders
      rows).isEmpty then
    .exitAllPresent
  else
    .ok (annotatedRows existingFiles relnorm norm useSubfolders rows)
      (pendingRows existingFiles relnorm norm useSubfolders rows)
      (some (existingFiles.length,
        (pendingRows existingFiles relnorm norm useSubfolders
          rows).length))

/-! ## Concrete inputs for counterexamples and witnesses -/

/-- Concrete input refuting C4 as stated: two expected rows with distinct
checksums, an observed table holding the first checksum twice.  The inner
join has two rows (the first expected row matched twice), so the guard
`dl_match.shape[0] < df.shape[0]` fails and the sentinel is returned, yet
the second expected row's identifier is absent from the joined result. -/
def c4ImgCE : List ImgRow := [⟨some "imgA", "x"⟩, ⟨some "imgB", "y"⟩]

/-- Observed table for the C4 counterexample (duplicate checksum "x"). -/
def c4ChkCE : List ChkRow := [⟨"f1", "x"⟩, ⟨"f2", "x"⟩]

/-- A server whose every attempt raises a connection error: the C2
counterexample input. -/
def c2ExnServer : Nat → Resp := fun _ => .exn "connection error"

/-! ## Unfolding equations and invariants of the retry loop -/

theorem dsiLoop_zero (resp : Nat → Resp) (wait retry : Nat) (u n d : String)
    (k : Nat) : dsiLoop resp wait retry u n d k 0 = ([], false) := rfl

theorem dsiLoop_exn_last (resp : Nat → Resp) (wait retry : Nat)
    (u n d : String) (k : Nat) (e : String) (h : resp k = .exn e) :
    dsiLoop resp wait retry u n d k 1 =
      ([.attempt k, .logFailure ⟨n, u, e⟩], false) := by
  simp [dsiLoop, h]

theorem dsiLoop_exn_cons (resp : Nat → Resp) (wait retry : Nat)
    (u n d : String) (k r : Nat) (e : String) (h : resp k = .exn e)
    (hr : r ≠ 0) :
    dsiLoop resp wait retry u n d k (r + 1) =
      (.attempt k :: (dsiLoop resp wait retry u n d (k + 1) r).1,
        (dsiLoop resp wait retry u n d (k + 1) r).2) := by
  simp [dsiLoop, h, hr]

theorem dsiLoop_200 (resp : Nat → Resp) (wait retry : Nat) (u n d : String)
    (k r : Nat) (h : resp k = .status 200) :
    dsiLoop resp wait retry u n d k (r + 1) =
      ([.attempt k, .logSuccess ⟨n, u, "200"⟩, .mkdir d,
        .writeFile (d ++ "/" ++ n)], true) := by
  simp [dsiLoop, h]
  rfl

theorem dsiLoop_redo_last (resp : Nat → Resp) (wait retry : Nat)
    (u n d : String) (k : Nat) (c : Nat) (h : resp k = .status c)
    (hc : c ≠ 200) (hm : c ∈ REDO_CODE_LIST) :
    dsiLoop resp wait retry u n d k 1 =
      ([.attempt k, .logFailure ⟨n, u, Nat.repr c⟩], false) := by
  simp [dsiLoop, h, hc, hm]

theorem dsiLoop_redo_cons (resp : Nat → Resp) (wait retry : Nat)
    (u n d : String) (k r : Nat) (c : Nat) (h : resp k = .status c)
    (hc : c ≠ 200) (hm : c ∈ REDO_CODE_LIST) (hr : r ≠ 0) :
    dsiLoop resp wait retry u n d k (r + 1) =
      (.attempt k ::
        .sleep (if c = 403 then wait * 2 ^ (retry - r) else wait) ::
        (dsiLoop resp wait retry u n d (k + 1) r).1,
        (dsiLoop resp wait retry u n d (k + 1) r).2) := by
  simp [dsiLoop, h, hc, hm, hr]

theorem dsiLoop_other (resp : Nat → Resp) (wait retry : Nat)
    (u n d : String) (k r : Nat) (c : Nat) (h : resp k = .status c)
    (hc : c ≠ 200) (hm : ¬ c ∈ REDO_CODE_LIST) :
    dsiLoop resp wait retry u n d k (r + 1) =
      ([.attempt k, .logFailure ⟨n, u, Nat.repr c⟩], false) := by
  simp [dsiLoop, h, hc, hm]

theorem dsiLoop_one_log (resp : Nat → Resp) (wait retry : Nat)
    (u n d : String) :
    ∀ r k, 1 ≤ r →
      ((dsiLoop resp wait retry u n d k r).1.countP Ev.isLogSuccess) +
        ((dsiLoop resp wait retry u n d k r).1.countP Ev.isLogFailure) = 1 ∧
      (((dsiLoop resp wait retry u n d k r).1.countP Ev.isLogSuccess) = 1 ↔
        (dsiLoop resp wait retry u n d k r).2 = true) ∧
      ((dsiLoop resp wait retry u n d k r).2 = true ↔
        ∃ j, Ev.attempt j ∈ (dsiLoop resp wait retry u n d k r).1 ∧
          resp j = .status 200) := by
  intro r
  induction r with
  | zero => intro k h; exact absurd h (by omega)
  | succ r ih =>
    intro k _
    rcases hresp : resp k with e | c
    · rcases Nat.eq_zero_or_pos r with hr | hr
      · subst hr
        rw [dsiLoop_exn_last resp wait retry u n d k e hresp]
        refine ⟨by simp [Ev.isLogSuccess, Ev.isLogFailure],
          by simp [Ev.isLogSuccess], ?_⟩
        simp only [List.mem_cons, List.mem_singleton, false_iff]
        constructor
        · intro h; simp at h
        · rintro ⟨j, hj | hj, h2⟩
          · obtain rfl : j = k := by simpa using hj
            rw [hresp] at h2
            simp at h2
          · simp at hj
      · rw [dsiLoop_exn_cons resp wait retry u n d k r e hresp
          (Nat.pos_iff_ne_zero.mp hr)]
        obtain ⟨ha, hb, hc⟩ := ih (k + 1) hr
        refine ⟨by simpa [Ev.isLogSuccess, Ev.isLogFailure] using ha,
          by simpa [Ev.isLogSuccess] using hb, ?_⟩
        rw [hc]
        constructor
        · rintro ⟨j, hj, h2⟩
          exact ⟨j, List.mem_cons_of_mem _ hj, h2⟩
        · rintro ⟨j, hj, h2⟩
          rcases List.mem_cons.mp hj with hj | hj
          · obtain rfl : j = k := by simpa using hj
            rw [hresp] at h2
            simp at h2
          · exact ⟨j, hj, h2⟩
    · by_cases hc200 : c = 200
      · subst hc200
        rw [dsiLoop_200 resp wait retry u n d k r hresp]
        refine ⟨by simp [Ev.isLogSuccess, Ev.isLogFailure],
          by simp [Ev.isLogSuccess], ?_⟩
        constructor
        · intro _
          exact ⟨k, by simp, hresp⟩
        · intro _
          rfl
      · by_cases hredo : c ∈ REDO_CODE_LIST
        · rcases Nat.eq_zero_or_pos r with hr | hr
          · subst hr
            rw [dsiLoop_redo_last resp wait retry u n d k c hresp hc200
              hredo]
            refine ⟨by simp [Ev.isLogSuccess, Ev.isLogFailure],
              by simp [Ev.isLogSuccess], ?_⟩
            simp only [false_iff]
            constructor
            · intro h; simp at h
            · rintro ⟨j, hj, h2⟩
              rcases List.mem_cons.mp hj with hj | hj
              · obtain rfl : j = k := by simpa using hj
                rw [hresp] at h2
                simp at h2
                exact absurd h2 hc200
              · simp at hj
          · rw [dsiLoop_redo_cons resp wait retry u n d k r c hresp hc200
              hredo (Nat.pos_iff_ne_zero.mp hr)]
            obtain ⟨ha, hb, hc⟩ := ih (k + 1) hr
            refine ⟨by simpa [Ev.isLogSuccess, Ev.isLogFailure] using ha,
              by simpa [Ev.isLogSuccess] using hb, ?_⟩
            rw [hc]
            constructor
            · rintro ⟨j, hj, h2⟩
              exact ⟨j, List.mem_cons_of_mem _ (List.mem_cons_of_mem _ hj),
                h2⟩
            · rintro ⟨j, hj, h2⟩
              rcases List.mem_cons.mp hj with hj | hj
              · obtain rfl : j = k := by simpa using hj
                rw [hresp] at h2
                exact absurd (by simpa using h2 : c = 200) hc200
              · rcases List.mem_cons.mp hj with hj | hj
                · simp at hj
                · exact ⟨j, hj, h2⟩
        · rw [dsiLoop_other resp wait retry u n d k r c hresp hc200 hredo]
          refine ⟨by simp [Ev.isLogSuccess, Ev.isLogFailure],
            by simp [Ev.isLogSuccess], ?_⟩
          simp only [false_iff]
          constructor
          · intro h; simp at h
          · rintro ⟨j, hj, h2⟩
            rcases List.mem_cons.mp hj with hj | hj
            · obtain rfl : j = k := by simpa using hj
              rw [hresp] at h2
              simp at h2
              exact absurd h2 hc200
            · simp at hj

theorem dsiLoop_head (resp : Nat → Resp) (wait retry : Nat) (u n d : String)
    (k r : Nat) (hr : 1 ≤ r) :
    (dsiLoop resp wait retry u n d k r).1.get? 0 = some (.attempt k) := by
  rcases r with _ | r
  · exact absurd hr (by omega)
  · rcases hresp : resp k with e | c
    · rcases Nat.eq_zero_or_pos r with hr0 | hr0
      · subst hr0
        rw [dsiLoop_exn_last resp wait retry u n d k e hresp]
        rfl
      · rw [dsiLoop_exn_cons resp wait retry u n d k r e hresp
          (Nat.pos_iff_ne_zero.mp hr0)]
        rfl
    · by_cases h200 : c = 200
      · subst h200
        rw [dsiLoop_200 resp wait retry u n d k r hresp]
        rfl
      · by_cases hm : c ∈ REDO_CODE_LIST
        · rcases Nat.eq_zero_or_pos r with hr0 | hr0
          · subst hr0
            rw [dsiLoop_redo_last resp wait retry u n d k c hresp h200 hm]
            rfl
          · rw [dsiLoop_redo_cons resp wait retry u n d k r c hresp h200 hm
              (Nat.pos_iff_ne_zero.mp hr0)]
            rfl
        · rw [dsiLoop_other resp wait retry u n d k r c hresp h200 hm]
          rfl

theorem dsiLoop_backoff (resp : Nat → Resp) (wait retry : Nat)
    (u n d : String) :
    ∀ r k0, k0 + r = retry → ∀ i k,
      (dsiLoop resp wait retry u n d k0 r).1.get? i = some (.attempt k) →
      (∀ c, resp k = .status c → c ≠ 200 → c ∈ REDO_CODE_LIST →
        k + 1 < retry →
        (dsiLoop resp wait retry u n d k0 r).1.get? (i + 1) =
          some (.sleep (if c = 403 then wait * 2 ^ (k + 1) else wait))) ∧
      (∀ e, resp k = .exn e → k + 1 < retry →
        (dsiLoop resp wait retry u n d k0 r).1.get? (i + 1) =
          some (.attempt (k + 1))) := by
  intro r
  induction r with
  | zero =>
    intro k0 hk i k hget
    rw [dsiLoop_zero] at hget
    simp at hget
  | succ r ih =>
    intro k0 hk i k hget
    rcases hresp : resp k0 with e | c
    · rcases Nat.eq_zero_or_pos r with hr | hr
      · subst hr
        rw [dsiLoop_exn_last resp wait retry u n d k0 e hresp] at hget ⊢
        rcases i with _ | _ | i
        · obtain rfl : k0 = k := by simpa using hget
          exact ⟨fun c _ _ _ hlt => by omega, fun e' _ hlt => by omega⟩
        · simp at hget
        · simp at hget
      · have hr0 := Nat.pos_iff_ne_zero.mp hr
        rw [dsiLoop_exn_cons resp wait retry u n d k0 r e hresp hr0]
          at hget ⊢
        rcases i with _ | i
        · obtain rfl : k0 = k := by simpa using hget
          constructor
          · intro c hc
            rw [hresp] at hc
            simp at hc
          · intro e' _ _
            simpa using dsiLoop_head resp wait retry u n d (k0 + 1) r hr
        · simp only [List.get?_cons_succ] at hget ⊢
          exact ih (k0 + 1) (by omega) i k hget
    · by_cases h200 : c = 200
      · subst h200
        rw [dsiLoop_200 resp wait retry u n d k0 r hresp] at hget ⊢
        rcases i with _ | _ | _ | _ | i
        · obtain rfl : k0 = k := by simpa using hget
          constructor
          · intro c' hc' hne _ _
            rw [hresp] at hc'
            exact absurd (by simpa using hc'.symm : c' = 200) hne
          · intro e' he' _
            rw [hresp] at he'
            simp at he'
        · simp at hget
        · simp at hget
        · simp at hget
        · simp at hget
      · by_cases hm : c ∈ REDO_CODE_LIST
        · rcases Nat.eq_zero_or_pos r with hr | hr
          · subst hr
            rw [dsiLoop_redo_last resp wait retry u n d k0 c hresp h200 hm]
              at hget ⊢
            rcases i with _ | _ | i
            · obtain rfl : k0 = k := by simpa using hget
              exact ⟨fun c' _ _ _ hlt => by omega, fun e' _ hlt => by omega⟩
            · simp at hget
            · simp at hget
          · have hr0 := Nat.pos_iff_ne_zero.mp hr
            rw [dsiLoop_redo_cons resp wait retry u n d k0 r c hresp h200 hm
              hr0] at hget ⊢
            rcases i with _ | _ | i
            · obtain rfl : k0 = k := by simpa using hget
              constructor
              · intro c' hc' _ _ _
                obtain rfl : c' = c := by
                  rw [hresp] at hc'
                  simpa using hc'.symm
                have hwr : retry - r = k0 + 1 := by omega
                simp [hwr]
              · intro e' he' _
                rw [hresp] at he'
                simp at he'
            · simp at hget
            · simp only [List.get?_cons_succ] at hget ⊢
              exact ih (k0 + 1) (by omega) i k hget
        · rw [dsiLoop_other resp wait retry u n d k0 r c hresp h200 hm]
            at hget ⊢
          rcases i with _ | _ | i
          · obtain rfl : k0 = k := by simpa using hget
            constructor
            · intro c' hc' _ hmem _
              obtain rfl : c' = c := by
                rw [hresp] at hc'
                simpa using hc'.symm
              exact absurd hmem hm
            · intro e' he' _
              rw [hresp] at he'
              simp at he'
          · simp at hget
          · simp at hget

theorem dsiLoop_logSuccess_before_disk (resp : Nat → Resp)
    (wait retry : Nat) (u n d : String) :
    ∀ r k i ev, (dsiLoop resp wait retry u n d k r).1.get? i = some ev →
      ev.isDiskWrite = true →
      ∃ j, j < i ∧ (dsiLoop resp wait retry u n d k r).1.get? j =
        some (.logSuccess ⟨n, u, "200"⟩) := by
  intro r
  induction r with
  | zero =>
    intro k i ev hget _
    rw [dsiLoop_zero] at hget
    simp at hget
  | succ r ih =>
    intro k i ev hget hdisk
    rcases hresp : resp k with e | c
    · rcases Nat.eq_zero_or_pos r with hr | hr
      · subst hr
        rw [dsiLoop_exn_last resp wait retry u n d k e hresp] at hget ⊢
        rcases i with _ | _ | i
        · obtain rfl : Ev.attempt k = ev := by simpa using hget
          simp [Ev.isDiskWrite] at hdisk
        · obtain rfl : Ev.logFailure ⟨n, u, e⟩ = ev := by simpa using hget
          simp [Ev.isDiskWrite] at hdisk
        · simp at hget
      · have hr0 := Nat.pos_iff_ne_zero.mp hr
        rw [dsiLoop_exn_cons resp wait retry u n d k r e hresp hr0]
          at hget ⊢
        rcases i with _ | i
        · obtain rfl : Ev.attempt k = ev := by simpa using hget
          simp [Ev.isDiskWrite] at hdisk
        · simp only [List.get?_cons_succ] at hget
          obtain ⟨j, hj, hgetj⟩ := ih (k + 1) i ev hget hdisk
          exact ⟨j + 1, by omega, by simpa using hgetj⟩
    · by_cases h200 : c = 200
      · subst h200
        rw [dsiLoop_200 resp wait retry u n d k r hresp] at hget ⊢
        rcases i with _ | _ | _ | _ | i
        · obtain rfl : Ev.attempt k = ev := by simpa using hget
          simp [Ev.isDiskWrite] at hdisk
        · obtain rfl : Ev.logSuccess ⟨n, u, "200"⟩ = ev := by simpa using hget
          simp [Ev.isDiskWrite] at hdisk
        · exact ⟨1, by omega, rfl⟩
        · exact ⟨1, by omega, rfl⟩
        · simp at hget
      · by_cases hm : c ∈ REDO_CODE_LIST
        · rcases Nat.eq_zero_or_pos r with hr | hr
          · subst hr
            rw [dsiLoop_redo_last resp wait retry u n d k c hresp h200 hm]
              at hget ⊢
            rcases i with _ | _ | i
            · obtain rfl : Ev.attempt k = ev := by simpa using hget
              simp [Ev.isDiskWrite] at hdisk
            · obtain rfl : Ev.logFailure ⟨n, u, Nat.repr c⟩ = ev := by
                simpa using hget
              simp [Ev.isDiskWrite] at hdisk
            · simp at hget
          · have hr0 := Nat.pos_iff_ne_zero.mp hr
            rw [dsiLoop_redo_cons resp wait retry u n d k r c hresp h200 hm
              hr0] at hget ⊢
            rcases i with _ | _ | i
            · obtain rfl : Ev.attempt k = ev := by simpa using hget
              simp [Ev.isDiskWrite] at hdisk
            · obtain rfl :
                  Ev.sleep (if c = 403 then wait * 2 ^ (retry - r) else wait)
                    = ev := by simpa using hget
              simp [Ev.isDiskWrite] at hdisk
            · simp only [List.get?_cons_succ] at hget
              obtain ⟨j, hj, hgetj⟩ := ih (k + 1) i ev hget hdisk
              exact ⟨j + 2, by omega, by simpa using hgetj⟩
        · rw [dsiLoop_other resp wait retry u n d k r c hresp h200 hm]
            at hget ⊢
          rcases i with _ | _ | i
          · obtain rfl : Ev.attempt k = ev := by simpa using hget
            simp [Ev.isDiskWrite] at hdisk
          · obtain rfl : Ev.logFailure ⟨n, u, Nat.repr c⟩ = ev := by
              simpa using hget
            simp [Ev.isDiskWrite] at hdisk
          · simp at hget

theorem dsiLoop_no_downsample (resp : Nat → Resp) (wait retry : Nat)
    (u n d : String) :
    ∀ r k,
      (dsiLoop resp wait retry u n d k r).1.countP Ev.isDownsampleInvoke
        = 0 := by
  intro r
  induction r with
  | zero => intro k; rw [dsiLoop_zero]; rfl
  | succ r ih =>
    intro k
    rcases hresp : resp k with e | c
    · rcases Nat.eq_zero_or_pos r with hr | hr
      · subst hr
        rw [dsiLoop_exn_last resp wait retry u n d k e hresp]
        rfl
      · rw [dsiLoop_exn_cons resp wait retry u n d k r e hresp
          (Nat.pos_iff_ne_zero.mp hr)]
        simpa [Ev.isDownsampleInvoke] using ih (k + 1)
    · by_cases h200 : c = 200
      · subst h200
        rw [dsiLoop_200 resp wait retry u n d k r hresp]
        rfl
      · by_cases hm : c ∈ REDO_CODE_LIST
        · rcases Nat.eq_zero_or_pos r with hr | hr
          · subst hr
            rw [dsiLoop_redo_last resp wait retry u n d k c hresp h200 hm]
            rfl
          · rw [dsiLoop_redo_cons resp wait retry u n d k r c hresp h200 hm
              (Nat.pos_iff_ne_zero.mp hr)]
            simpa [Ev.isDownsampleInvoke] using ih (k + 1)
        · rw [dsiLoop_other resp wait retry u n d k r c hresp h200 hm]
          rfl

theorem dsiLoop_success_write (resp : Nat → Resp) (wait retry : Nat)
    (u n d : String) :
    ∀ r k, (dsiLoop resp wait retry u n d k r).2 = true →
      ∃ j, j < (dsiLoop resp wait retry u n d k r).1.length ∧
        (dsiLoop resp wait retry u n d k r).1.get? j =
          some (.writeFile (d ++ "/" ++ n)) := by
  intro r
  induction r with
  | zero =>
    intro k hs
    rw [dsiLoop_zero] at hs
    simp at hs
  | succ r ih =>
    intro k hs
    rcases hresp : resp k with e | c
    · rcases Nat.eq_zero_or_pos r with hr | hr
      · subst hr
        rw [dsiLoop_exn_last resp wait retry u n d k e hresp] at hs
        simp at hs
      · have hr0 := Nat.pos_iff_ne_zero.mp hr
        rw [dsiLoop_exn_cons resp wait retry u n d k r e hresp hr0]
          at hs ⊢
        obtain ⟨j, hj, hgetj⟩ := ih (k + 1) hs
        exact ⟨j + 1, by simpa using Nat.succ_lt_succ hj,
          by simpa using hgetj⟩
    · by_cases h200 : c = 200
      · subst h200
        rw [dsiLoop_200 resp wait retry u n d k r hresp]
        exact ⟨3, by simp, rfl⟩
      · by_cases hm : c ∈ REDO_CODE_LIST
        · rcases Nat.eq_zero_or_pos r with hr | hr
          · subst hr
            rw [dsiLoop_redo_last resp wait retry u n d k c hresp h200 hm]
              at hs
            simp at hs
          · have hr0 := Nat.pos_iff_ne_zero.mp hr
            rw [dsiLoop_redo_cons resp wait retry u n d k r c hresp h200 hm
              hr0] at hs ⊢
            obtain ⟨j, hj, hgetj⟩ := ih (k + 1) hs
            refine ⟨j + 2, ?_, by simpa using hgetj⟩
            simp only [List.length_cons]
            omega
        · rw [dsiLoop_other resp wait retry u n d k r c hresp h200 hm] at hs
          simp at hs

/-! ### Theorems about the reconciliation engine -/


/-- C3. The claim says `check_alignment` raises a distinct error
(`EmptyDataFrameError`) on an empty expected table instead of returning the
"none missing" sentinel.  The code contains no such check: evaluated at an
empty expected table and a non-empty observed table, `check_alignment`
returns `none`, which is exactly the "none missing" sentinel — the empty
input IS reported as "all present", contradicting the claim (and the repo's
own `exceptions.EmptyDataFrameError` plus the expectations of
`tests/test_buddycheck.py`). -/
theorem C3_empty_expected_reported_as_all_present :
    check_alignment false []
      [⟨"image1.jpg", "abc123"⟩, ⟨"image2.jpg", "def456"⟩,
       ⟨"image3.jpg", "ghi789"⟩] = none := by
  rfl

/-- C4 (counterexample). The claim states that for non-empty inputs the
result is exactly the expected rows whose identifier is not among the joined
result's identifiers, with the sentinel if and only if that set is empty.
At `c4ImgCE`/`c4ChkCE` the set the claim prescribes is `[imgB]` (non-empty),
but `check_alignment` returns the sentinel `none`: the claim is false. -/
theorem C4_duplicate_checksums_mask_missing_row :
    check_alignment false c4ImgCE c4ChkCE = none ∧
    spec_missing_rows false c4ImgCE c4ChkCE = [⟨some "imgB", "y"⟩] := by
  constructor <;> rfl

/-- C4 (amended). For every pair of non-empty tables, `check_alignment`
returns the spec's missing set (expected rows, identifiers filtered
non-null, whose identifier is not among the joined result's identifiers)
exactly when the inner-join result has strictly fewer rows than the
null-filtered expected table, and the "none missing" sentinel otherwise —
even when, due to duplicated observed checksums, the join row count reaches
the expected count while some identifiers are unmatched. -/
theorem C4_amended_check_alignment_guarded_missing_set
    (useBuddyId : Bool) (imgDf : List ImgRow) (checksumDf : List ChkRow)
    (himg : imgDf ≠ []) (hchk : checksumDf ≠ []) :
    check_alignment useBuddyId imgDf checksumDf =
      if (innerMerge useBuddyId (imgDf.filter fun r => r.idOpt.isSome)
            checksumDf).length <
          (imgDf.filter fun r => r.idOpt.isSome).length then
        some (spec_missing_rows useBuddyId imgDf checksumDf)
      else
        none := by
  simp only [check_alignment, spec_missing_rows, List.mem_dedup]

/-- C4 witness: the four-expected / three-observed instance from the claim.
Applying the amended theorem at that input and evaluating yields exactly the
one unmatched row. -/
theorem C4_amended_witness :
    check_alignment true
      [⟨some "img1", "abc123"⟩, ⟨some "img2", "def456"⟩,
       ⟨some "img3", "ghi789"⟩, ⟨some "img4", "jkl012"⟩]
      [⟨"img1", "abc123"⟩, ⟨"img2", "def456"⟩, ⟨"img3", "ghi789"⟩] =
      some [⟨some "img4", "jkl012"⟩] := by
  have h := C4_amended_check_alignment_guarded_missing_set true
    [⟨some "img1", "abc123"⟩, ⟨some "img2", "def456"⟩,
     ⟨some "img3", "ghi789"⟩, ⟨some "img4", "jkl012"⟩]
    [⟨"img1", "abc123"⟩, ⟨"img2", "def456"⟩, ⟨"img3", "ghi789"⟩]
    (by decide) (by decide)
  rw [h]
  rfl

/-- C10. `check_alignment` filters the expected table to rows with a
non-null identifier before joining: rows with a null identifier never
influence the result (the result over the raw table equals the result over
the pre-filtered table), and every row of a returned missing set carries a
non-null identifier. -/
theorem C10_null_identifiers_never_counted
    (useBuddyId : Bool) (imgDf : List ImgRow) (checksumDf : List ChkRow) :
    check_alignment useBuddyId imgDf checksumDf =
      check_alignment useBuddyId (imgDf.filter fun r => r.idOpt.isSome)
        checksumDf ∧
    ((check_alignment useBuddyId imgDf checksumDf).getD []).all
      (fun r => r.idOpt.isSome) = true := by
  have hf : List.filter (fun r : ImgRow => r.idOpt.isSome)
      (List.filter (fun r : ImgRow => r.idOpt.isSome) imgDf) =
      List.filter (fun r : ImgRow => r.idOpt.isSome) imgDf := by
    simp [List.filter_filter]
  constructor
  · simp only [check_alignment, hf]
  · dsimp only [check_alignment]
    split
    · simp only [Option.getD_some, List.all_eq_true, decide_eq_true_eq]
      intro r hr
      have hdf := List.mem_of_mem_filter hr
      have := List.of_mem_filter hdf
      simpa using this
    · simp

/-! ### Theorems about the fetch executor and the per-row flow -/

/-- C1. Every row that reaches `download_single_image` with a retry budget
of at least 1 produces exactly one log entry, appended to exactly one of
the two streams: the success stream exactly when the flag is `true`, and
the flag is `true` exactly when some attempt actually made returned HTTP
200 — never both streams and never zero entries. -/
theorem C1_fetched_row_logs_exactly_once (resp : Nat → Resp)
    (wait retry : Nat) (url image_name image_dir_path : String)
    (h : 1 ≤ retry) :
    ((download_single_image resp wait retry url image_name
        image_dir_path).1.countP Ev.isLogSuccess) +
      ((download_single_image resp wait retry url image_name
        image_dir_path).1.countP Ev.isLogFailure) = 1 ∧
    (((download_single_image resp wait retry url image_name
        image_dir_path).1.countP Ev.isLogSuccess) = 1 ↔
      (download_single_image resp wait retry url image_name
        image_dir_path).2 = true) ∧
    ((download_single_image resp wait retry url image_name
        image_dir_path).2 = true ↔
      ∃ k, Ev.attempt k ∈ (download_single_image resp wait retry url
          image_name image_dir_path).1 ∧ resp k = .status 200) :=
  dsiLoop_one_log resp wait retry url image_name image_dir_path retry 0 h

/-- C1 witness: a concrete run (server always answers 200, default budget
5) discharging the budget hypothesis. -/
theorem C1_fetched_row_logs_exactly_once_witness :
    1 ≤ 5 ∧
    (((download_single_image (fun _ => .status 200) 3 5 "http://h/a.png"
        "a.png" "imgs").1.countP Ev.isLogSuccess) +
      ((download_single_image (fun _ => .status 200) 3 5 "http://h/a.png"
        "a.png" "imgs").1.countP Ev.isLogFailure) = 1 ∧
    (((download_single_image (fun _ => .status 200) 3 5 "http://h/a.png"
        "a.png" "imgs").1.countP Ev.isLogSuccess) = 1 ↔
      (download_single_image (fun _ => .status 200) 3 5 "http://h/a.png"
        "a.png" "imgs").2 = true) ∧
    ((download_single_image (fun _ => .status 200) 3 5 "http://h/a.png"
        "a.png" "imgs").2 = true ↔
      ∃ k, Ev.attempt k ∈ (download_single_image (fun _ => .status 200) 3 5
          "http://h/a.png" "a.png" "imgs").1 ∧
        (fun _ => Resp.status 200) k = .status 200)) :=
  ⟨by decide, C1_fetched_row_logs_exactly_once (fun _ => .status 200) 3 5
    "http://h/a.png" "a.png" "imgs" (by decide)⟩

/-- C2 (counterexample). The claim asserts the executor sleeps `wait`
seconds after a network exception that is not the last budgeted attempt.
With `wait = 3`, `retry = 2` and every attempt raising an exception, the
first attempt is not the last budgeted one, yet the trace holds two
back-to-back attempts and no sleep event at all: the code retries
exceptions immediately. -/
theorem C2_exception_retry_never_sleeps :
    (download_single_image c2ExnServer 3 2 "http://h/a.png" "a.png"
        "imgs").1 =
      [.attempt 0, .attempt 1,
        .logFailure ⟨"a.png", "http://h/a.png", "connection error"⟩] ∧
    (download_single_image c2ExnServer 3 2 "http://h/a.png" "a.png"
        "imgs").1.countP Ev.isSleep = 0 ∧
    (download_single_image c2ExnServer 3 2 "http://h/a.png" "a.png"
        "imgs").1.countP Ev.isAttempt = 2 := by
  refine ⟨rfl, rfl, rfl⟩

/-- C2 (amended). For every attempt actually made (at trace position `i`,
attempt number `k`) that is not the last budgeted one (`k + 1 < retry`):
after a retryable HTTP status the executor sleeps exactly `wait` seconds —
`wait * 2 ^ (k + 1)` for status 403, the exponent counting the attempts
made so far — before the next attempt; after a network exception it does
NOT sleep: the next event is immediately the next attempt. -/
theorem C2_amended_backoff_policy (resp : Nat → Resp) (wait retry : Nat)
    (url image_name image_dir_path : String) (i k : Nat)
    (hget : (download_single_image resp wait retry url image_name
      image_dir_path).1.get? i = some (.attempt k)) :
    (∀ c, resp k = .status c → c ≠ 200 → c ∈ REDO_CODE_LIST →
      k + 1 < retry →
      (download_single_image resp wait retry url image_name
        image_dir_path).1.get? (i + 1) =
        some (.sleep (if c = 403 then wait * 2 ^ (k + 1) else wait))) ∧
    (∀ e, resp k = .exn e → k + 1 < retry →
      (download_single_image resp wait retry url image_name
        image_dir_path).1.get? (i + 1) = some (.attempt (k + 1))) :=
  dsiLoop_backoff resp wait retry url image_name image_dir_path retry 0
    (by omega) i k hget

/-- C2 amended witness: with `wait = 3`, `retry = 3`, a 429 attempt is
followed by a 3-second sleep, the second 403 attempt by a
`3 * 2 ^ 2 = 12`-second sleep, and an exception attempt immediately by the
next attempt. -/
theorem C2_amended_backoff_policy_witness :
    (download_single_image (fun _ => .status 429) 3 3 "u" "n" "d").1.get? 1
      = some (.sleep 3) ∧
    (download_single_image (fun _ => .status 403) 3 3 "u" "n" "d").1.get? 3
      = some (.sleep 12) ∧
    (download_single_image (fun _ => .exn "boom") 3 3 "u" "n" "d").1.get? 1
      = some (.attempt 1) := by
  refine ⟨?_, ?_, ?_⟩
  · have h := (C2_amended_backoff_policy (fun _ => .status 429) 3 3 "u" "n"
      "d" 0 0 (by rfl)).1 429 rfl (by decide) (by decide) (by decide)
    simpa using h
  · have h := (C2_amended_backoff_policy (fun _ => .status 403) 3 3 "u" "n"
      "d" 2 1 (by rfl)).1 403 rfl (by decide) (by decide) (by decide)
    simpa using h
  · exact (C2_amended_backoff_policy (fun _ => .exn "boom") 3 3 "u" "n"
      "d" 0 0 (by rfl)).2 "boom" rfl (by decide)

/-- C9. Within `download_single_image`, every file-system mutation for the
row (directory creation, body write) happens strictly after the success log
entry was appended: the success entry precedes the file's existence, so the
file never exists without its log entry, while a crash between the two can
leave a log entry with no file. -/
theorem C9_success_log_precedes_disk_write (resp : Nat → Resp)
    (wait retry : Nat) (url image_name image_dir_path : String) (i : Nat)
    (ev : Ev)
    (hget : (download_single_image resp wait retry url image_name
      image_dir_path).1.get? i = some ev)
    (hdisk : ev.isDiskWrite = true) :
    ∃ j, j < i ∧
      (download_single_image resp wait retry url image_name
        image_dir_path).1.get? j =
        some (.logSuccess ⟨image_name, url, "200"⟩) :=
  dsiLoop_logSuccess_before_disk resp wait retry url image_name
    image_dir_path retry 0 i ev hget hdisk

/-- C9 witness: in a concrete 200 run the body write sits at position 3 and
a success log entry exists strictly before it. -/
theorem C9_success_log_precedes_disk_write_witness :
    ∃ j, j < 3 ∧
      (download_single_image (fun _ => .status 200) 3 5 "u" "n" "d").1.get?
        j = some (.logSuccess ⟨"n", "u", "200"⟩) :=
  C9_success_log_precedes_disk_write (fun _ => .status 200) 3 5 "u" "n" "d"
    3 (.writeFile ("d" ++ "/" ++ "n")) (by rfl) (by rfl)

/-- C5. In the per-row flow of `download_images`, the downsample writer is
invoked only after the primary download completed: any
`downsampleInvoke` event in a row's trace is preceded by the primary body
write and by the success log entry.  A row whose fetch ends in a terminal
failure produces neither, so it never reaches the secondary-artifact
writer. -/
theorem C5_downsample_only_after_success
    (guessType guessExt headRaw : String → Option String)
    (fs : String → Bool) (cfg : DownloadConfig) (row : Row) (i : Nat)
    (sd nm dd : String) (sz : Nat)
    (hget : (processRow guessType guessExt headRaw fs cfg row).get? i =
      some (.downsampleInvoke sd nm dd sz)) :
    (∃ j, j < i ∧ ∃ p,
      (processRow guessType guessExt headRaw fs cfg row).get? j =
        some (.writeFile p)) ∧
    (∃ j, j < i ∧ ∃ en,
      (processRow guessType guessExt headRaw fs cfg row).get? j =
        some (.logSuccess en)) := by
  by_cases hinv : is_url_missing_or_invalid row.urlCell = true
  · have hmem := List.get?_mem hget
    simp [processRow, hinv] at hmem
  · rcases hgip : get_image_path guessType guessExt headRaw cfg.imgDir
        cfg.useSubfolders row.subfolderCell row.filenameCell row.urlCell
      with e | pr
    · have hmem := List.get?_mem hget
      simp [processRow, hinv, hgip] at hmem
    · obtain ⟨dir, name⟩ := pr
      by_cases hex : fs (dir ++ "/" ++ name) = true
      · have hmem := List.get?_mem hget
        simp [processRow, hinv, hgip, hex] at hmem
      · have hpr : processRow guessType guessExt headRaw fs cfg row =
            (download_single_image row.resp cfg.wait cfg.retry
              (cellString row.urlCell) name dir).1 ++
            (if (download_single_image row.resp cfg.wait cfg.retry
                (cellString row.urlCell) name dir).2 then
              process_downsampling fs cfg row.subfolderCell name dir
            else []) := by
          simp [processRow, hinv, hgip, hex]
        rw [hpr] at hget ⊢
        rcases hsucc : (download_single_image row.resp cfg.wait cfg.retry
            (cellString row.urlCell) name dir).2 with _ | _
        · rw [hsucc] at hget
          simp only [if_false, List.append_nil, Bool.false_eq_true] at hget
          have hmem2 := List.get?_mem hget
          have h0 := dsiLoop_no_downsample row.resp cfg.wait cfg.retry
            (cellString row.urlCell) name dir cfg.retry 0
          have := List.countP_eq_zero.mp h0 _ hmem2
          simp [Ev.isDownsampleInvoke] at this
        · obtain ⟨j, hjlen, hjget⟩ := dsiLoop_success_write row.resp
            cfg.wait cfg.retry (cellString row.urlCell) name dir cfg.retry
            0 hsucc
          have hdsi : (download_single_image row.resp cfg.wait cfg.retry
              (cellString row.urlCell) name dir).1 =
              (dsiLoop row.resp cfg.wait cfg.retry (cellString row.urlCell)
                name dir 0 cfg.retry).1 := rfl
          rw [← hdsi] at hjlen hjget
          have hilen : ¬ i < (download_single_image row.resp cfg.wait
              cfg.retry (cellString row.urlCell) name dir).1.length := by
            intro hi
            rw [List.get?_append hi] at hget
            have hmem2 := List.get?_mem hget
            have h0 := dsiLoop_no_downsample row.resp cfg.wait cfg.retry
              (cellString row.urlCell) name dir cfg.retry 0
            have := List.countP_eq_zero.mp h0 _ hmem2
            simp [Ev.isDownsampleInvoke] at this
          constructor
          · exact ⟨j, by omega, _, by
              rw [List.get?_append hjlen]; exact hjget⟩
          · obtain ⟨j2, hj2, hget2⟩ := dsiLoop_logSuccess_before_disk
              row.resp cfg.wait cfg.retry (cellString row.urlCell) name dir
              cfg.retry 0 j (.writeFile (dir ++ "/" ++ name)) hjget rfl
            rw [← hdsi] at hget2
            exact ⟨j2, by omega, _, by
              rw [List.get?_append (lt_trans hj2 hjlen)]; exact hget2⟩

/-- C5 witness: a concrete successful row with downsampling configured; the
downsample invocation sits at position 4 and both the body write and the
success log entry precede it. -/
theorem C5_downsample_only_after_success_witness :
    (∃ j, j < 4 ∧ ∃ p,
      (processRow (fun _ => none) (fun _ => none) (fun _ => none)
          (fun _ => false) ⟨"imgs", false, "imgs_downsized", some 100, 3, 2⟩
          ⟨"a.jpg", .str "http://h/a.jpg", "", fun _ => .status 200⟩).get?
        j = some (.writeFile p)) ∧
    (∃ j, j < 4 ∧ ∃ en,
      (processRow (fun _ => none) (fun _ => none) (fun _ => none)
          (fun _ => false) ⟨"imgs", false, "imgs_downsized", some 100, 3, 2⟩
          ⟨"a.jpg", .str "http://h/a.jpg", "", fun _ => .status 200⟩).get?
        j = some (.logSuccess en)) :=
  C5_downsample_only_after_success (fun _ => none) (fun _ => none)
    (fun _ => none) (fun _ => false)
    ⟨"imgs", false, "imgs_downsized", some 100, 3, 2⟩
    ⟨"a.jpg", .str "http://h/a.jpg", "", fun _ => .status 200⟩ 4 "imgs"
    "a.jpg" "imgs_downsized" 100 (by rfl)

/-- C6. A row whose URL cell is missing, blank, or a textual null sentinel:
filename resolution still returns the bare identifier with no error; the
row's trace is exactly one failure-stream entry with code "invalid url"
(in particular no HTTP attempt is ever issued); and `download_images`
continues with the remaining rows unchanged. -/
theorem C6_invalid_url_row_skipped_and_logged
    (guessType guessExt headRaw : String → Option String)
    (fs : String → Bool) (cfg : DownloadConfig) (row : Row)
    (rest : List Row) (h : is_url_missing_or_invalid row.urlCell = true) :
    resolve_filename_with_extension guessType guessExt headRaw
      row.filenameCell row.urlCell = .ok row.filenameCell ∧
    processRow guessType guessExt headRaw fs cfg row =
      [.logFailure
        ⟨row.filenameCell, skipFilePath row.urlCell, "invalid url"⟩] ∧
    (processRow guessType guessExt headRaw fs cfg row).countP Ev.isAttempt
      = 0 ∧
    download_images guessType guessExt headRaw fs cfg (row :: rest) =
      processRow guessType guessExt headRaw fs cfg row ++
        download_images guessType guessExt headRaw fs cfg rest := by
  have htrace : processRow guessType guessExt headRaw fs cfg row =
      [.logFailure
        ⟨row.filenameCell, skipFilePath row.urlCell, "invalid url"⟩] := by
    simp [processRow, h]
  refine ⟨?_, htrace, ?_, ?_⟩
  · simp [resolve_filename_with_extension, h]
  · rw [htrace]
    rfl
  · simp [download_images]

/-- C6 witness: the sentinel value `"NULL"` on a concrete row, followed by
one further row, discharging the invalid-URL hypothesis. -/
theorem C6_invalid_url_row_skipped_and_logged_witness :
    is_url_missing_or_invalid (Cell.str "NULL") = true ∧
    (resolve_filename_with_extension (fun _ => none) (fun _ => none)
        (fun _ => none) "img001" (.str "NULL") = .ok "img001" ∧
    processRow (fun _ => none) (fun _ => none) (fun _ => none)
        (fun _ => false) ⟨"imgs", false, "ds", none, 3, 5⟩
        ⟨"img001", .str "NULL", "", fun _ => .status 200⟩ =
      [.logFailure ⟨"img001", "NULL", "invalid url"⟩] ∧
    (processRow (fun _ => none) (fun _ => none) (fun _ => none)
        (fun _ => false) ⟨"imgs", false, "ds", none, 3, 5⟩
        ⟨"img001", .str "NULL", "", fun _ => .status 200⟩).countP
      Ev.isAttempt = 0 ∧
    download_images (fun _ => none) (fun _ => none) (fun _ => none)
        (fun _ => false) ⟨"imgs", false, "ds", none, 3, 5⟩
        (⟨"img001", .str "NULL", "", fun _ => .status 200⟩ ::
          [⟨"img002", .str "http://h/b.png", "", fun _ => .status 404⟩]) =
      processRow (fun _ => none) (fun _ => none) (fun _ => none)
          (fun _ => false) ⟨"imgs", false, "ds", none, 3, 5⟩
          ⟨"img001", .str "NULL", "", fun _ => .status 200⟩ ++
        download_images (fun _ => none) (fun _ => none) (fun _ => none)
          (fun _ => false) ⟨"imgs", false, "ds", none, 3, 5⟩
          [⟨"img002", .str "http://h/b.png", "", fun _ => .status 404⟩]) :=
  ⟨by decide, C6_invalid_url_row_skipped_and_logged (fun _ => none)
    (fun _ => none) (fun _ => none) (fun _ => false)
    ⟨"imgs", false, "ds", none, 3, 5⟩
    ⟨"img001", .str "NULL", "", fun _ => .status 200⟩
    [⟨"img002", .str "http://h/b.png", "", fun _ => .status 404⟩]
    (by decide)⟩

/-- C8. For a valid URL where exactly one of identifier and URL path
carries an extension, resolution uses that extension and returns no error:
the identifier as-is when it has the extension, the identifier with the
URL's extension appended when only the URL has one. -/
theorem C8_one_sided_extension_resolution
    (guessType guessExt headRaw : String → Option String) (base s : String)
    (hvalid : is_url_missing_or_invalid (.str s) = false) :
    (∀ e, extract_extension_from_filename base = some e →
      extract_extension_from_url s = none →
      resolve_filename_with_extension guessType guessExt headRaw base
        (.str s) = .ok base) ∧
    (∀ e, extract_extension_from_filename base = none →
      extract_extension_from_url s = some e →
      resolve_filename_with_extension guessType guessExt headRaw base
        (.str s) = .ok (base ++ e)) := by
  constructor
  · intro e h1 h2
    simp [resolve_filename_with_extension, hvalid, cellString, h1, h2]
  · intro e h1 h2
    simp [resolve_filename_with_extension, hvalid, cellString, h1, h2]

/-- C8 witness: identifier `"123"` with URL `http://example.com/image.png`
resolves to `"123.png"`; identifier `"image.jpg"` with an extensionless
URL resolves to `"image.jpg"`. -/
theorem C8_one_sided_extension_resolution_witness :
    resolve_filename_with_extension (fun _ => none) (fun _ => none)
      (fun _ => none) "123" (.str "http://example.com/image.png") =
      .ok "123.png" ∧
    resolve_filename_with_extension (fun _ => none) (fun _ => none)
      (fun _ => none) "image.jpg" (.str "http://example.com/api/123") =
      .ok "image.jpg" := by
  constructor
  · have h := (C8_one_sided_extension_resolution (fun _ => none)
      (fun _ => none) (fun _ => none) "123" "http://example.com/image.png"
      (by decide)).2 ".png" (by decide) (by decide)
    simpa using h
  · exact (C8_one_sided_extension_resolution (fun _ => none)
      (fun _ => none) (fun _ => none) "image.jpg"
      "http://example.com/api/123" (by decide)).1 ".jpg" (by decide)
      (by decide)

/-! ### Theorems about the existence guard -/

/-- C7. The existence guard: with a missing destination root it returns all
rows as pending (no error, nothing printed); when the directory exists and
the scan leaves nothing pending, the run terminates with the distinguishing
"nothing to do" exit; otherwise it returns the annotated and pending rows
together with the reported counts of existing files and files still to
download. -/
theorem C7_existence_guard (existingFiles : List String)
    (relnorm norm : String → String) (useSubfolders : Bool)
    (rows : List CERow) :
    check_existing_images false existingFiles relnorm norm useSubfolders
        rows = .ok (rows.map fun r => (r, false)) rows none ∧
    ((pendingRows existingFiles relnorm norm useSubfolders rows).isEmpty =
        true →
      check_existing_images true existingFiles relnorm norm useSubfolders
        rows = .exitAllPresent) ∧
    ((pendingRows existingFiles relnorm norm useSubfolders rows).isEmpty =
        false →
      check_existing_images true existingFiles relnorm norm useSubfolders
          rows =
        .ok (annotatedRows existingFiles relnorm norm useSubfolders rows)
          (pendingRows existingFiles relnorm norm useSubfolders rows)
          (some (existingFiles.length,
            (pendingRows existingFiles relnorm norm useSubfolders
              rows).length))) := by
  refine ⟨rfl, ?_, ?_⟩
  · intro h
    simp [check_existing_images, h]
  · intro h
    simp [check_existing_images, h]

/-- C7 witness: one row already present exits early; the same row against
an empty directory is reported as the one file to download with zero
existing. -/
theorem C7_existence_guard_witness :
    check_existing_images true ["a.jpg"] (fun s => s) (fun s => s) false
      [⟨"a.jpg", ""⟩] = .exitAllPresent ∧
    check_existing_images true [] (fun s => s) (fun s => s) false
      [⟨"a.jpg", ""⟩] =
      .ok [(⟨"a.jpg", ""⟩, false)] [⟨"a.jpg", ""⟩] (some (0, 1)) := by
  constructor
  · exact (C7_existence_guard ["a.jpg"] (fun s => s) (fun s => s) false
      [⟨"a.jpg", ""⟩]).2.1 (by rfl)
  · have h := (C7_existence_guard [] (fun s => s) (fun s => s) false
      [⟨"a.jpg", ""⟩]).2.2 (by rfl)
    simpa using h

end CautiousRobot
